import Mathlib

/-
Shallow embedding of the ingest-service core of the log-analytics platform:
the job lifecycle (app/jobs/service.py), the two-phase upload orchestration
(app/ingest/service.py) and the authorization engine (app/auth/authorization.py,
app/auth/dependencies.py, app/auth/models.py).

Database sessions are modelled by explicit state passing: each service
operation receives the committed database state and returns the resulting
committed state together with its outcome.  `db.flush` corresponds to updating
the in-flight state, `db.commit` to returning the in-flight state, and
`db.rollback` to returning the original state.  Python exceptions are
modelled with `Except`.  Wall-clock timestamps are abstract `Nat` values
supplied by the environment; external collaborators (object storage, the
Redis queue, uuid generation) are fields of an explicit environment record.
-/

deriving instance DecidableEq for Except

namespace Ingest

/-! ## String helpers: executable models of the Python string operations
used by the services (`str.split`, `in`, `str.lower`). -/

/-- Embeds `s.split(sep)` for a one-character separator, on the character list. -/
def splitOnChar (sep : Char) : List Char → List (List Char)
  | [] => [[]]
  | x :: xs =>
    let r := splitOnChar sep xs
    if x == sep then [] :: r
    else
      match r with
      | s :: rest => (x :: s) :: rest
      | [] => [[x]]

/-- Embeds `s.split(sep)` on strings. -/
def pySplit (sep : Char) (s : String) : List String :=
  (splitOnChar sep s.data).map String.mk

/-- Embeds `c in s` for a one-character needle. -/
def pyContainsChar (s : String) (c : Char) : Bool :=
  s.data.contains c

/-- Embeds `s.lower()` (ASCII case folding, all inputs of interest are ASCII). -/
def pyLower (s : String) : String :=
  String.mk (s.data.map Char.toLower)

/-! ## Enumerations (app/common/constants.py) -/

inductive JobStatus
  | CREATED
  | QUEUED
  | PROCESSING
  | COMPLETED
  | FAILED
  | CANCELLED
deriving DecidableEq, Repr

def JobStatus.value : JobStatus → String
  | .CREATED => "CREATED"
  | .QUEUED => "QUEUED"
  | .PROCESSING => "PROCESSING"
  | .COMPLETED => "COMPLETED"
  | .FAILED => "FAILED"
  | .CANCELLED => "CANCELLED"

/-- Embeds `JobStatus(s)` in Python: parse a stored status string back to the enum;
`none` models the `ValueError` raised on an unrecognized value. -/
def JobStatus.ofValue : String → Option JobStatus
  | "CREATED" => some .CREATED
  | "QUEUED" => some .QUEUED
  | "PROCESSING" => some .PROCESSING
  | "COMPLETED" => some .COMPLETED
  | "FAILED" => some .FAILED
  | "CANCELLED" => some .CANCELLED
  | _ => none

inductive JobType
  | FILE_UPLOAD
  | STREAM_INGEST
deriving DecidableEq, Repr

def JobType.value : JobType → String
  | .FILE_UPLOAD => "FILE_UPLOAD"
  | .STREAM_INGEST => "STREAM_INGEST"

inductive LogFormat
  | JSON
  | TEXT
  | CSV
  | NDJSON
deriving DecidableEq, Repr

def LogFormat.value : LogFormat → String
  | .JSON => "json"
  | .TEXT => "text"
  | .CSV => "csv"
  | .NDJSON => "ndjson"

/-- Embeds `LogFormat(s)` in Python; `none` models the raised `ValueError`. -/
def LogFormat.ofValue : String → Option LogFormat
  | "json" => some .JSON
  | "text" => some .TEXT
  | "csv" => some .CSV
  | "ndjson" => some .NDJSON
  | _ => none

inductive StorageType
  | S3
  | LOCAL
deriving DecidableEq, Repr

def StorageType.value : StorageType → String
  | .S3 => "s3"
  | .LOCAL => "local"

/-! ## Error taxonomy (app/jobs/exceptions.py, app/auth/exceptions.py,
app/common/exceptions/infrastucture.py) -/

inductive Err
  | jobNotFoundError (msg : String)
  | invalidJobStateError (msg : String)
  | storageError
  | queueError
  | valueError (msg : String)
  | permissionDenied
  | policyDenied
deriving DecidableEq, Repr

/-! ## Data model (app/jobs/models.py) -/

structure Job where
  job_id : String
  job_type : String
  source : String
  status : String
  progress : Nat
  retry_count : Nat
  queued_at : Option Nat
  started_at : Option Nat
  finished_at : Option Nat
  error_message : Option String
deriving DecidableEq, Repr

structure FileUpload where
  job_id : String
  storage_type : String
  bucket : String
  object_key : String
  local_path : Option String
  file_size : Nat
  log_format : String
deriving DecidableEq, Repr

/-- The relevant relational state: the `jobs` and `file_uploads` tables. -/
structure DB where
  jobs : List Job
  uploads : List FileUpload
deriving DecidableEq, Repr

def DB.getJob (db : DB) (job_id : String) : Option Job :=
  db.jobs.find? (fun j => j.job_id == job_id)

def DB.getUpload (db : DB) (job_id : String) : Option FileUpload :=
  db.uploads.find? (fun u => u.job_id == job_id)

def DB.insertJob (db : DB) (j : Job) : DB :=
  { db with jobs := db.jobs ++ [j] }

def DB.insertUpload (db : DB) (u : FileUpload) : DB :=
  { db with uploads := db.uploads ++ [u] }

/-- Persisting a mutation of an ORM-attached `Job` object: the row with the
same primary key is updated in place. -/
def DB.setJob (db : DB) (j : Job) : DB :=
  { db with jobs := db.jobs.map (fun x => if x.job_id == j.job_id then j else x) }

/-! ## JobService (app/jobs/service.py) -/

/-- Embeds `JobService.create_job`: builds the row that `db.add` + `db.flush`
insert.  `job_id` is the generated uuid, supplied by the caller's
environment. -/
def create_job (job_id : String) (job_type : JobType) (source : String)
    (status : JobStatus) : Job :=
  { job_id := job_id
    job_type := job_type.value
    source := source
    status := status.value
    progress := 0
    retry_count := 0
    queued_at := none
    started_at := none
    finished_at := none
    error_message := none }

/-- Embeds `JobService.get_job_or_raise`. -/
def get_job_or_raise (db : DB) (job_id : String) : Except Err Job :=
  match db.getJob job_id with
  | none => .error (.jobNotFoundError ("Job not found: " ++ job_id))
  | some job => .ok job

/-- Python truthiness of the optional `error_message` argument:
`if error_message:` is false for `None` and for the empty string. -/
def pyTruthy : Option String → Bool
  | none => false
  | some m => m != ""

/-- Embeds `JobService.update_job_status`: sets the status string, stores a truthy
`error_message`, and stamps the timestamp field selected by the target
status (`queued_at` for QUEUED, `started_at` for PROCESSING, `finished_at`
for the three terminal statuses).  `now` is `datetime.now(timezone.utc)`. -/
def update_job_status (job : Job) (status : JobStatus)
    (error_message : Option String) (now : Nat) : Job :=
  { job with
    status := status.value
    error_message := if pyTruthy error_message then error_message else job.error_message
    queued_at := if status = .QUEUED then some now else job.queued_at
    started_at := if status = .PROCESSING then some now else job.started_at
    finished_at :=
      if status = .COMPLETED ∨ status = .FAILED ∨ status = .CANCELLED then some now
      else job.finished_at }

/-- Embeds `JobService.validate_job_state`: re-parses the stored status string
(`JobStatus(job.status)`, which raises `ValueError` on an unrecognized
string) and raises `InvalidJobStateError` unless it equals the expected
status. -/
def validate_job_state (job : Job) (expected_status : JobStatus) : Except Err Unit :=
  match JobStatus.ofValue job.status with
  | none => .error (.valueError ("invalid JobStatus: " ++ job.status))
  | some current_status =>
    if current_status ≠ expected_status then
      .error (.invalidJobStateError
        ("Job " ++ job.job_id ++ " is in state " ++ current_status.value ++
          ", expected " ++ expected_status.value))
    else .ok ()

/-- Embeds `JobService.create_file_upload`: builds the row that `db.add` +
`db.flush` insert. -/
def create_file_upload (job_id : String) (bucket : String) (object_key : String)
    (file_size : Nat) (log_format : LogFormat) (storage_type : StorageType)
    (local_path : Option String) : FileUpload :=
  { job_id := job_id
    storage_type := storage_type.value
    bucket := bucket
    object_key := object_key
    local_path := local_path
    file_size := file_size
    log_format := log_format.value }

/-! ## UploadService environment (app/common/infrastructure/storage.py,
app/common/infrastructure/queue.py, app/common/config.py, uuid) -/

/-- One queue message, `{job_id, job_type, payload:{bucket, key, log_format,
file_size}}`, as assembled by `UploadService.complete_upload`. -/
structure EnqueueMsg where
  job_id : String
  job_type : String
  bucket : String
  key : String
  log_format : String
  file_size : Nat
deriving DecidableEq, Repr

/-- External collaborators of the upload orchestrator for one request:
the storage gateway (`object_exists` may also raise, `generate_presigned_put`
raises `StorageError` on failure), the queue gateway (`enqueue_job` raises
`QueueError` when `enqueue_ok` is false), the generated uuid, the configured
bucket, and the current wall-clock time. -/
structure Env where
  object_exists : String → Except Err Bool
  presign : String → Except Err String
  enqueue_ok : Bool
  job_id : String
  bucket : String
  now : Nat

/-! ## UploadService (app/ingest/service.py) -/

/-- Embeds `UploadService.init_upload`: validate/normalize the log format (an
unrecognized value falls back to JSON), create the Job and FileUpload rows,
derive the object key from the job id and the filename extension (default
"log"), ask the storage gateway for a presigned URL, and commit only if
that call succeeded; on failure roll back, leaving the original state. -/
def init_upload (env : Env) (db : DB) (filename : String) (size : Nat)
    (log_format : String) : Except Err (Job × FileUpload × String) × DB :=
  let log_format_enum := (LogFormat.ofValue (pyLower log_format)).getD LogFormat.JSON
  let job := create_job env.job_id .FILE_UPLOAD "api" .CREATED
  let db1 := db.insertJob job
  let file_extension :=
    if pyContainsChar filename '.' then (pySplit '.' filename).getLastD "" else "log"
  let object_key := "raw-logs/" ++ job.job_id ++ "." ++ file_extension
  let upload := create_file_upload job.job_id env.bucket object_key size
    log_format_enum .S3 none
  let db2 := db1.insertUpload upload
  match env.presign object_key with
  | .ok presigned_url => (.ok (job, upload, presigned_url), db2)
  | .error e => (.error e, db)

/-- Embeds `UploadService.complete_upload`: look the job up, require status
CREATED, look the upload metadata up, require the object to exist in
storage, transition to QUEUED, enqueue the processing message, and commit
only if everything succeeded; every failure path rolls the transaction
back, leaving the original state and enqueueing nothing.  The third
component collects the messages the queue gateway accepted. -/
def complete_upload (env : Env) (db : DB) (job_id : String) :
    Except Err Job × DB × List EnqueueMsg :=
  match get_job_or_raise db job_id with
  | .error e => (.error e, db, [])
  | .ok job =>
    match validate_job_state job .CREATED with
    | .error e => (.error e, db, [])
    | .ok _ =>
      match db.getUpload job_id with
      | none =>
        (.error (.jobNotFoundError ("File upload metadata not found for job: " ++ job_id)),
          db, [])
      | some upload =>
        match env.object_exists upload.object_key with
        | .error e => (.error e, db, [])
        | .ok false => (.error .storageError, db, [])
        | .ok true =>
          let job2 := update_job_status job .QUEUED none env.now
          let db2 := db.setJob job2
          let msg : EnqueueMsg :=
            { job_id := job2.job_id
              job_type := job2.job_type
              bucket := upload.bucket
              key := upload.object_key
              log_format := upload.log_format
              file_size := upload.file_size }
          if env.enqueue_ok then (.ok job2, db2, [msg])
          else (.error .queueError, db, [])

/-! ## Auth domain model (app/auth/models.py, app/auth/schemas.py) -/

inductive Role
  | ADMIN
  | MANAGER
  | USER
deriving DecidableEq, Repr

/-- Embeds `Role(s)` in Python; `none` models the raised `ValueError`. -/
def Role.ofValue : String → Option Role
  | "admin" => some .ADMIN
  | "manager" => some .MANAGER
  | "user" => some .USER
  | _ => none

inductive Permission
  | USER_CREATE
  | USER_VIEW
  | USER_VIEW_ANY
  | USER_LIST
  | USER_UPDATE
  | USER_DELETE
  | USER_UPDATE_PROFILE
  | USER_UPDATE_PASSWORD
  | USER_UPDATE_ROLE
  | USER_UPDATE_PERMISSION
  | USER_UPDATE_STATUS
deriving DecidableEq, Repr

/-- Embeds `Permission(s)` in Python; `none` models the raised `ValueError`. -/
def Permission.ofValue : String → Option Permission
  | "user:create" => some .USER_CREATE
  | "user:view" => some .USER_VIEW
  | "user:view:any" => some .USER_VIEW_ANY
  | "user:list" => some .USER_LIST
  | "user:update" => some .USER_UPDATE
  | "user:delete" => some .USER_DELETE
  | "user:update:profile" => some .USER_UPDATE_PROFILE
  | "user:update:password" => some .USER_UPDATE_PASSWORD
  | "user:update:role" => some .USER_UPDATE_ROLE
  | "user:update:permission" => some .USER_UPDATE_PERMISSION
  | "user:update:status" => some .USER_UPDATE_STATUS
  | _ => none

/-- The static role-to-permissions table `ROLE_PERMISSIONS`. -/
def ROLE_PERMISSIONS : Role → Finset Permission
  | .ADMIN =>
    { Permission.USER_CREATE, Permission.USER_VIEW_ANY, Permission.USER_LIST,
      Permission.USER_UPDATE, Permission.USER_DELETE }
  | .MANAGER =>
    { Permission.USER_VIEW_ANY, Permission.USER_LIST,
      Permission.USER_UPDATE_PROFILE, Permission.USER_UPDATE_STATUS }
  | .USER =>
    { Permission.USER_VIEW, Permission.USER_UPDATE_PROFILE,
      Permission.USER_UPDATE_PASSWORD }

/-- The identity bundle extracted from a JWT (`AuthUser`): `roles` and
`permissions` are carried as the raw claim strings, which is what
`resolve_auth_context` parses element by element. -/
structure AuthUser where
  user_id : String
  username : String
  email : String
  roles : List String
  permissions : List String
deriving DecidableEq, Repr

/-- Embeds `AuthContext`: the resolved, effective view of one identity. -/
structure AuthContext where
  user_id : String
  roles : Finset String
  permissions : Finset Permission
deriving DecidableEq

/-! ## Authorization engine (app/auth/authorization.py) -/

/-- Embeds `set(Permission(p) for p in user.permissions or [])`: parses each
explicit permission string; the first unrecognized one raises
`ValueError`. -/
def parsePerms : List String → Except Err (List Permission)
  | [] => .ok []
  | p :: ps =>
    match Permission.ofValue p with
    | none => .error (.valueError ("invalid Permission: " ++ p))
    | some q => (parsePerms ps).map (fun qs => q :: qs)

/-- The role loop shared by `resolve_auth_context` and
`resolve_permissions`: starting from the explicit permissions, each role
string is parsed; a recognized role contributes `ROLE_PERMISSIONS[role]`,
an unrecognized one is skipped (`except ValueError: continue`). -/
def rolesFold (init : Finset Permission) (roles : List String) : Finset Permission :=
  roles.foldl
    (fun acc role_str =>
      match Role.ofValue role_str with
      | some role => acc ∪ ROLE_PERMISSIONS role
      | none => acc)
    init

/-- Embeds `resolve_auth_context`. -/
def resolve_auth_context (current_user : AuthUser) : Except Err AuthContext :=
  match parsePerms current_user.permissions with
  | .error e => .error e
  | .ok ps =>
    .ok
      { user_id := current_user.user_id
        roles := current_user.roles.toFinset
        permissions := rolesFold ps.toFinset current_user.roles }

/-- Embeds `resolve_permissions` (app/auth/authorization.py, the duplicate of the
permission computation used by `require_permissions`). -/
def resolve_permissions (user : AuthUser) : Except Err (Finset Permission) :=
  match parsePerms user.permissions with
  | .error e => .error e
  | .ok ps => .ok (rolesFold ps.toFinset user.roles)

/-! ## Auth dependencies (app/auth/dependencies.py) -/

/-- Embeds `require_permissions(*required)`: resolves the caller's permissions and
denies unless `user_permissions.intersection(required)` is non-empty. -/
def require_permissions (required : List Permission) (current_user : AuthUser) :
    Except Err AuthUser :=
  match resolve_permissions current_user with
  | .error e => .error e
  | .ok user_permissions =>
    if (user_permissions ∩ required.toFinset).Nonempty then .ok current_user
    else .error .permissionDenied

/-- Embeds `OwnerOrPermissionPolicy(permission, resource_param)`. -/
structure OwnerOrPermissionPolicy where
  permission : Permission
  resource_param : String
deriving DecidableEq, Repr

/-- Embeds `kwargs.get(key)`: `None` both when the key is absent and when it maps
to `None`. -/
def kwargsGet (kwargs : List (String × Option String)) (key : String) : Option String :=
  match kwargs.find? (fun kv => kv.1 == key) with
  | none => none
  | some kv => kv.2

/-- Python `==` between the `str` field `ctx.user_id` and the optional
`resource_owner_id`: comparison with `None` is false. -/
def pyEqOpt (s : String) (o : Option String) : Bool :=
  match o with
  | some t => s == t
  | none => false

/-- Embeds `OwnerOrPermissionPolicy.check`: allow when the caller owns the
resource (`ctx.user_id == kwargs.get(resource_param)`), otherwise iff the
configured permission is among the caller's permissions. -/
def OwnerOrPermissionPolicy.check (pol : OwnerOrPermissionPolicy)
    (ctx : AuthContext) (kwargs : List (String × Option String)) : Bool :=
  let resource_owner_id := kwargsGet kwargs pol.resource_param
  if pyEqOpt ctx.user_id resource_owner_id then true
  else decide (pol.permission ∈ ctx.permissions)

/-- Embeds `require_policy(policy, path_param)`: resolves the context, looks the
path parameter up (absent parameters yield `None`), and denies when the
policy check fails. -/
def require_policy (policy : OwnerOrPermissionPolicy) (path_param : String)
    (path_params : List (String × String)) (current_user : AuthUser) :
    Except Err AuthContext :=
  match resolve_auth_context current_user with
  | .error e => .error e
  | .ok ctx =>
    let resource_id := (path_params.find? (fun kv => kv.1 == path_param)).map (fun kv => kv.2)
    if policy.check ctx [(path_param, resource_id)] then .ok ctx
    else .error .policyDenied

/-! ## Theorems -/

/-- C4: `require_permissions` uses any-of semantics: for every identity and
every required permission set, the check passes iff the intersection of the
required set with the resolved permissions is non-empty, and it denies with
`PermissionDenied` iff that intersection is empty. -/
theorem require_permissions_any_of (required : List Permission)
    (current_user : AuthUser) (perms : Finset Permission)
    (h : resolve_permissions current_user = .ok perms) :
    (require_permissions required current_user = .ok current_user ↔
      (perms ∩ required.toFinset).Nonempty) ∧
    (require_permissions required current_user = .error .permissionDenied ↔
      perms ∩ required.toFinset = ∅) := by
  unfold require_permissions
  rw [h]
  by_cases hne : (perms ∩ required.toFinset).Nonempty
  · simp [hne, ← Finset.nonempty_iff_ne_empty]
  · simp [hne, Finset.not_nonempty_iff_eq_empty.mp hne]

theorem require_permissions_any_of_witness :
    (require_permissions [.USER_VIEW, .USER_CREATE] ⟨"u1", "alice", "a", ["user"], []⟩ =
        .ok ⟨"u1", "alice", "a", ["user"], []⟩ ↔
      ({Permission.USER_VIEW, Permission.USER_UPDATE_PROFILE, Permission.USER_UPDATE_PASSWORD} ∩
        ([Permission.USER_VIEW, Permission.USER_CREATE] : List Permission).toFinset).Nonempty) ∧
    (require_permissions [.USER_VIEW, .USER_CREATE] ⟨"u1", "alice", "a", ["user"], []⟩ =
        .error .permissionDenied ↔
      {Permission.USER_VIEW, Permission.USER_UPDATE_PROFILE, Permission.USER_UPDATE_PASSWORD} ∩
        ([Permission.USER_VIEW, Permission.USER_CREATE] : List Permission).toFinset = ∅) :=
  require_permissions_any_of [.USER_VIEW, .USER_CREATE] ⟨"u1", "alice", "a", ["user"], []⟩
    {Permission.USER_VIEW, Permission.USER_UPDATE_PROFILE, Permission.USER_UPDATE_PASSWORD}
    (by decide)

/-- C6: the OwnerOrPermission policy with the resource owner id supplied:
it allows exactly when the caller is the owner or holds the configured
permission — ownership alone suffices regardless of the permission set,
and a non-owner is allowed iff the permission is present. -/
theorem owner_or_permission_check (pol : OwnerOrPermissionPolicy)
    (ctx : AuthContext) (resource_owner_id : String) :
    pol.check ctx [(pol.resource_param, some resource_owner_id)] =
      (decide (ctx.user_id = resource_owner_id) ||
        decide (pol.permission ∈ ctx.permissions)) := by
  unfold OwnerOrPermissionPolicy.check kwargsGet pyEqOpt
  by_cases h : ctx.user_id = resource_owner_id <;> simp [h]

/-- C10: when the policy's resource parameter is absent from the supplied
parameters (the looked-up owner id is `None`), the ownership branch can
never fire and the check reduces to the pure permission test. -/
theorem owner_or_permission_check_absent_param (pol : OwnerOrPermissionPolicy)
    (ctx : AuthContext) (kwargs : List (String × Option String))
    (h : kwargsGet kwargs pol.resource_param = none) :
    pol.check ctx kwargs = decide (pol.permission ∈ ctx.permissions) := by
  unfold OwnerOrPermissionPolicy.check
  rw [h]
  simp [pyEqOpt]

theorem owner_or_permission_check_absent_param_witness :
    OwnerOrPermissionPolicy.check ⟨Permission.USER_VIEW, "user_id"⟩ ⟨"u1", ∅, ∅⟩ [] =
      decide (Permission.USER_VIEW ∈ (∅ : Finset Permission)) :=
  owner_or_permission_check_absent_param ⟨Permission.USER_VIEW, "user_id"⟩ ⟨"u1", ∅, ∅⟩ [] rfl

/-- C8 counterexample: timestamps are not write-once across distinct
statuses — a job whose `finished_at` was set on entry to COMPLETED has it
overwritten by a subsequent transition to FAILED. -/
theorem update_job_status_overwrites_finished_at :
    (update_job_status (create_job "J1" .FILE_UPLOAD "api" .CREATED)
        .COMPLETED none 0).finished_at = some 0 ∧
    (update_job_status
        (update_job_status (create_job "J1" .FILE_UPLOAD "api" .CREATED) .COMPLETED none 0)
        .FAILED none 1).finished_at = some 1 ∧
    (update_job_status
        (update_job_status (create_job "J1" .FILE_UPLOAD "api" .CREATED) .COMPLETED none 0)
        .FAILED none 1).finished_at ≠
      (update_job_status (create_job "J1" .FILE_UPLOAD "api" .CREATED)
        .COMPLETED none 0).finished_at := by
  decide

/-- C8 amended: every single transition sets at most one of `queued_at`
(entry to QUEUED), `started_at` (entry to PROCESSING), `finished_at`
(entry to a terminal status) and leaves the other two timestamp fields
unchanged; re-entering a status that maps to the same field (the same
status again, or a different terminal status) overwrites that field. -/
theorem update_job_status_frame (job : Job) (status : JobStatus)
    (error_message : Option String) (now : Nat) :
    match status with
    | .CREATED =>
        (update_job_status job status error_message now).queued_at = job.queued_at ∧
        (update_job_status job status error_message now).started_at = job.started_at ∧
        (update_job_status job status error_message now).finished_at = job.finished_at
    | .QUEUED =>
        (update_job_status job status error_message now).queued_at = some now ∧
        (update_job_status job status error_message now).started_at = job.started_at ∧
        (update_job_status job status error_message now).finished_at = job.finished_at
    | .PROCESSING =>
        (update_job_status job status error_message now).queued_at = job.queued_at ∧
        (update_job_status job status error_message now).started_at = some now ∧
        (update_job_status job status error_message now).finished_at = job.finished_at
    | _ =>
        (update_job_status job status error_message now).queued_at = job.queued_at ∧
        (update_job_status job status error_message now).started_at = job.started_at ∧
        (update_job_status job status error_message now).finished_at = some now := by
  cases status <;> simp [update_job_status]

/-- C9 counterexample: a transition to COMPLETED (not FAILED) with an
error message supplied stores the message, so `error_message` is not
reserved to FAILED jobs. -/
theorem update_job_status_error_message_non_failed :
    (create_job "J1" .FILE_UPLOAD "api" .CREATED).error_message = none ∧
    (update_job_status (create_job "J1" .FILE_UPLOAD "api" .CREATED)
        .COMPLETED (some "boom") 0).status = "COMPLETED" ∧
    (update_job_status (create_job "J1" .FILE_UPLOAD "api" .CREATED)
        .COMPLETED (some "boom") 0).error_message = some "boom" := by
  decide

/-- C9 amended: `update_job_status` stores any supplied non-empty error
message regardless of the target status, and leaves `error_message`
unchanged when no message (or an empty one) is supplied; keeping the field
reserved to FAILED is caller discipline, not enforced by the transition. -/
theorem update_job_status_error_message_semantics (job : Job)
    (status : JobStatus) (now : Nat) (m : String) (hm : m ≠ "") :
    (update_job_status job status none now).error_message = job.error_message ∧
    (update_job_status job status (some "") now).error_message = job.error_message ∧
    (update_job_status job status (some m) now).error_message = some m := by
  refine ⟨rfl, by simp [update_job_status, pyTruthy], ?_⟩
  simp [update_job_status, pyTruthy, hm]

theorem update_job_status_error_message_semantics_witness :
    (update_job_status (create_job "J1" .FILE_UPLOAD "api" .CREATED)
        .COMPLETED none 3).error_message =
      (create_job "J1" .FILE_UPLOAD "api" .CREATED).error_message ∧
    (update_job_status (create_job "J1" .FILE_UPLOAD "api" .CREATED)
        .COMPLETED (some "") 3).error_message =
      (create_job "J1" .FILE_UPLOAD "api" .CREATED).error_message ∧
    (update_job_status (create_job "J1" .FILE_UPLOAD "api" .CREATED)
        .COMPLETED (some "boom") 3).error_message = some "boom" :=
  update_job_status_error_message_semantics
    (create_job "J1" .FILE_UPLOAD "api" .CREATED) .COMPLETED 3 "boom" (by decide)

/-- C2: `init_upload` is atomic on storage-gateway failure: when the
presigned-URL issuance raises `StorageError`, the transaction is rolled
back, so for a fresh `job_id` no Job row and no FileUpload row exist
afterwards — lookups return not-found. -/
theorem init_upload_atomic_on_storage_failure (env : Env) (db : DB)
    (filename : String) (size : Nat) (log_format : String)
    (hfail : ∀ k, env.presign k = .error .storageError)
    (hjob : db.getJob env.job_id = none)
    (hupl : db.getUpload env.job_id = none) :
    (init_upload env db filename size log_format).1 = .error .storageError ∧
    (init_upload env db filename size log_format).2 = db ∧
    (init_upload env db filename size log_format).2.getJob env.job_id = none ∧
    (init_upload env db filename size log_format).2.getUpload env.job_id = none := by
  unfold init_upload
  simp [hfail, hjob, hupl]

theorem init_upload_atomic_on_storage_failure_witness :
    (init_upload
        { object_exists := fun _ => .ok true, presign := fun _ => .error .storageError,
          enqueue_ok := true, job_id := "J1", bucket := "logs", now := 7 }
        ⟨[], []⟩ "a.log" 1024 "json").1 = .error .storageError ∧
    (init_upload
        { object_exists := fun _ => .ok true, presign := fun _ => .error .storageError,
          enqueue_ok := true, job_id := "J1", bucket := "logs", now := 7 }
        ⟨[], []⟩ "a.log" 1024 "json").2 = (⟨[], []⟩ : DB) ∧
    (init_upload
        { object_exists := fun _ => .ok true, presign := fun _ => .error .storageError,
          enqueue_ok := true, job_id := "J1", bucket := "logs", now := 7 }
        ⟨[], []⟩ "a.log" 1024 "json").2.getJob "J1" = none ∧
    (init_upload
        { object_exists := fun _ => .ok true, presign := fun _ => .error .storageError,
          enqueue_ok := true, job_id := "J1", bucket := "logs", now := 7 }
        ⟨[], []⟩ "a.log" 1024 "json").2.getUpload "J1" = none :=
  init_upload_atomic_on_storage_failure
    { object_exists := fun _ => .ok true, presign := fun _ => .error .storageError,
      enqueue_ok := true, job_id := "J1", bucket := "logs", now := 7 }
    ⟨[], []⟩ "a.log" 1024 "json" (fun _ => rfl) rfl rfl

/-- The object key of the FileUpload produced by a successful
`init_upload`. -/
def initUploadKey (r : Except Err (Job × FileUpload × String) × DB) : Option String :=
  match r.1 with
  | .ok t => some t.2.1.object_key
  | .error _ => none

/-- The log format of the FileUpload produced by a successful
`init_upload`. -/
def initUploadFormat (r : Except Err (Job × FileUpload × String) × DB) : Option String :=
  match r.1 with
  | .ok t => some t.2.1.log_format
  | .error _ => none

/-- C7: `init_upload` derives the object key and normalizes the log
format: for filename "a.log", size 1024, format "json" the FileUpload has
object key `raw-logs/{job_id}.log` and log format "json"; a filename with
no dot gets the default extension "log"; an unrecognized format such as
"bogus" resolves to "json" instead of being rejected. -/
theorem init_upload_key_and_format (env : Env) (db : DB) (url : String)
    (filename : String)
    (hok : env.presign ("raw-logs/" ++ env.job_id ++ "." ++ "log") = .ok url)
    (hnodot : pyContainsChar filename '.' = false) :
    initUploadKey (init_upload env db "a.log" 1024 "json") =
      some ("raw-logs/" ++ env.job_id ++ "." ++ "log") ∧
    initUploadFormat (init_upload env db "a.log" 1024 "json") = some "json" ∧
    initUploadKey (init_upload env db filename 1024 "json") =
      some ("raw-logs/" ++ env.job_id ++ "." ++ "log") ∧
    initUploadFormat (init_upload env db "a.log" 1024 "bogus") = some "json" := by
  have hsplit : (pySplit '.' "a.log").getLast?.getD "" = "log" := by decide
  have hdot : pyContainsChar "a.log" '.' = true := by decide
  have hjson : (LogFormat.ofValue (pyLower "json")).getD LogFormat.JSON = LogFormat.JSON := by
    decide
  have hbogus : (LogFormat.ofValue (pyLower "bogus")).getD LogFormat.JSON = LogFormat.JSON := by
    decide
  refine ⟨?_, ?_, ?_, ?_⟩ <;>
    simp [init_upload, hsplit, hdot, hjson, hbogus, hnodot, hok, initUploadKey,
      initUploadFormat, create_file_upload, create_job, LogFormat.value]

theorem init_upload_key_and_format_witness :
    initUploadKey (init_upload
        { object_exists := fun _ => .ok true, presign := fun _ => .ok "https://u",
          enqueue_ok := true, job_id := "J1", bucket := "logs", now := 7 }
        ⟨[], []⟩ "a.log" 1024 "json") =
      some ("raw-logs/" ++ "J1" ++ "." ++ "log") ∧
    initUploadFormat (init_upload
        { object_exists := fun _ => .ok true, presign := fun _ => .ok "https://u",
          enqueue_ok := true, job_id := "J1", bucket := "logs", now := 7 }
        ⟨[], []⟩ "a.log" 1024 "json") = some "json" ∧
    initUploadKey (init_upload
        { object_exists := fun _ => .ok true, presign := fun _ => .ok "https://u",
          enqueue_ok := true, job_id := "J1", bucket := "logs", now := 7 }
        ⟨[], []⟩ "data" 1024 "json") =
      some ("raw-logs/" ++ "J1" ++ "." ++ "log") ∧
    initUploadFormat (init_upload
        { object_exists := fun _ => .ok true, presign := fun _ => .ok "https://u",
          enqueue_ok := true, job_id := "J1", bucket := "logs", now := 7 }
        ⟨[], []⟩ "a.log" 1024 "bogus") = some "json" :=
  init_upload_key_and_format
    { object_exists := fun _ => .ok true, presign := fun _ => .ok "https://u",
      enqueue_ok := true, job_id := "J1", bucket := "logs", now := 7 }
    ⟨[], []⟩ "https://u" "data" rfl (by decide)

/-- C5 counterexample: `resolve` is not total — an identity whose explicit
permission list contains an unrecognized string makes
`resolve_auth_context` raise a `ValueError` instead of returning a
context. -/
theorem resolve_auth_context_invalid_permission_cex :
    resolve_auth_context ⟨"u1", "alice", "a", [], ["bogus"]⟩ =
      .error (.valueError "invalid Permission: bogus") := by
  decide

/-- The union of the static per-role permission tables over the recognized
roles of a role-string list (the spec-side description of the effective
permissions contributed by roles). -/
def rolePermsUnion (roles : List String) : Finset Permission :=
  (roles.filterMap Role.ofValue).foldr (fun role acc => ROLE_PERMISSIONS role ∪ acc) ∅

/-- The permission set carried by a successfully resolved context. -/
def ctxPerms : Except Err AuthContext → Option (Finset Permission)
  | .ok ctx => some ctx.permissions
  | .error _ => none

theorem rolesFold_eq_union (init : Finset Permission) (roles : List String) :
    rolesFold init roles = init ∪ rolePermsUnion roles := by
  induction roles generalizing init with
  | nil => simp [rolesFold, rolePermsUnion]
  | cons r rs ih =>
    cases hr : Role.ofValue r with
    | none =>
      have h1 : rolesFold init (r :: rs) = rolesFold init rs := by
        simp [rolesFold, hr]
      have h2 : rolePermsUnion (r :: rs) = rolePermsUnion rs := by
        simp [rolePermsUnion, hr]
      rw [h1, h2, ih]
    | some role =>
      have h1 : rolesFold init (r :: rs) = rolesFold (init ∪ ROLE_PERMISSIONS role) rs := by
        simp [rolesFold, hr]
      have h2 : rolePermsUnion (r :: rs) = ROLE_PERMISSIONS role ∪ rolePermsUnion rs := by
        simp [rolePermsUnion, hr]
      rw [h1, h2, ih, Finset.union_assoc]

theorem foldr_union_perm {l l2 : List Role} (h : l.Perm l2) :
    l.foldr (fun role acc => ROLE_PERMISSIONS role ∪ acc) ∅ =
      l2.foldr (fun role acc => ROLE_PERMISSIONS role ∪ acc) ∅ := by
  induction h with
  | nil => rfl
  | cons x h ih => simp [List.foldr_cons, ih]
  | swap x y l => simp [List.foldr_cons, Finset.union_left_comm]
  | trans h1 h2 ih1 ih2 => rw [ih1, ih2]

theorem rolePermsUnion_perm {roles roles2 : List String} (h : roles.Perm roles2) :
    rolePermsUnion roles = rolePermsUnion roles2 :=
  foldr_union_perm (h.filterMap Role.ofValue)

/-- C5 amended: for identities whose explicit permission strings are all
recognized (which the typed identity schema guarantees upstream),
`resolve_auth_context` succeeds deterministically and its effective
permission set equals the explicit permissions unioned with the static
per-role tables of the recognized roles; unrecognized role strings are
skipped rather than rejected, and the result is unaffected by the order
the roles are listed. -/
theorem resolve_auth_context_effective_permissions (user user2 : AuthUser)
    (ps : List Permission)
    (hp : parsePerms user.permissions = .ok ps)
    (hp2 : user2.permissions = user.permissions)
    (hroles : user.roles.Perm user2.roles) :
    ctxPerms (resolve_auth_context user) =
      some (ps.toFinset ∪ rolePermsUnion user.roles) ∧
    ctxPerms (resolve_auth_context user2) = ctxPerms (resolve_auth_context user) := by
  have h1 : ctxPerms (resolve_auth_context user) =
      some (rolesFold ps.toFinset user.roles) := by
    unfold resolve_auth_context
    rw [hp]
    rfl
  have h2 : ctxPerms (resolve_auth_context user2) =
      some (rolesFold ps.toFinset user2.roles) := by
    unfold resolve_auth_context
    rw [hp2, hp]
    rfl
  refine ⟨by rw [h1, rolesFold_eq_union], ?_⟩
  rw [h1, h2, rolesFold_eq_union, rolesFold_eq_union, rolePermsUnion_perm hroles]

theorem resolve_auth_context_effective_permissions_witness :
    parsePerms (["user:delete"] : List String) = .ok [Permission.USER_DELETE] ∧
    (ctxPerms (resolve_auth_context ⟨"u1", "alice", "a", ["user", "admin"], ["user:delete"]⟩) =
      some ([Permission.USER_DELETE].toFinset ∪ rolePermsUnion ["user", "admin"]) ∧
    ctxPerms (resolve_auth_context ⟨"u1", "alice", "a", ["admin", "user"], ["user:delete"]⟩) =
      ctxPerms (resolve_auth_context ⟨"u1", "alice", "a", ["user", "admin"], ["user:delete"]⟩)) :=
  ⟨by decide,
    resolve_auth_context_effective_permissions
      ⟨"u1", "alice", "a", ["user", "admin"], ["user:delete"]⟩
      ⟨"u1", "alice", "a", ["admin", "user"], ["user:delete"]⟩
      [Permission.USER_DELETE] (by decide) rfl (List.Perm.swap "admin" "user" [])⟩

theorem get_job_or_raise_eq_ok {db : DB} {job_id : String} {job : Job}
    (h : get_job_or_raise db job_id = .ok job) : db.getJob job_id = some job := by
  unfold get_job_or_raise at h
  cases hg : db.getJob job_id with
  | none => rw [hg] at h; exact absurd h (by simp)
  | some j => rw [hg] at h; simpa using h

theorem getJob_job_id {db : DB} {job_id : String} {job : Job}
    (h : db.getJob job_id = some job) : job.job_id = job_id := by
  have hp := List.find?_some h
  simpa using hp

theorem find?_map_replace (l : List Job) (job_id : String) (job j2 : Job)
    (hfind : l.find? (fun x => x.job_id == job_id) = some job)
    (hid : j2.job_id = job_id) :
    (l.map (fun x => if x.job_id == j2.job_id then j2 else x)).find?
      (fun x => x.job_id == job_id) = some j2 := by
  induction l with
  | nil => simp at hfind
  | cons a l ih =>
    by_cases ha : a.job_id = job_id
    · simp [ha, hid]
    · rw [List.find?_cons_of_neg _ (by simpa using ha)] at hfind
      simpa [hid, ha] using ih hfind

theorem getJob_setJob {db : DB} {job_id : String} {job j2 : Job}
    (h : db.getJob job_id = some job) (h2 : j2.job_id = job_id) :
    (db.setJob j2).getJob job_id = some j2 :=
  find?_map_replace db.jobs job_id job j2 h h2

/-- C1: `complete_upload` is atomic on failure: whenever any step raises —
the job or upload lookup, the state validation, a storage failure or a
false existence answer, or a failing enqueue — the transaction is rolled
back before the error propagates, so the persisted database is exactly the
pre-call database and nothing was enqueued; and a QUEUED status is
committed only when the enqueue call succeeded. -/
theorem complete_upload_atomic (env : Env) (db : DB) (job_id : String) :
    match complete_upload env db job_id with
    | (.error _, db2, msgs) => db2 = db ∧ msgs = []
    | (.ok job, db2, msgs) =>
        env.enqueue_ok = true ∧ job.status = "QUEUED" ∧
        db2.getJob job_id = some job ∧ msgs.length = 1 := by
  unfold complete_upload
  cases hj : get_job_or_raise db job_id with
  | error e => simp [hj]
  | ok job =>
    cases hv : validate_job_state job .CREATED with
    | error e => simp [hj, hv]
    | ok u =>
      cases hu : db.getUpload job_id with
      | none => simp [hj, hv, hu]
      | some upload =>
        cases he : env.object_exists upload.object_key with
        | error e => simp [hj, hv, hu, he]
        | ok b =>
          cases b with
          | false => simp [hj, hv, hu, he]
          | true =>
            by_cases hq : env.enqueue_ok
            · have hjid : job.job_id = job_id := getJob_job_id (get_job_or_raise_eq_ok hj)
              have hset :
                  (db.setJob (update_job_status job .QUEUED none env.now)).getJob job_id =
                    some (update_job_status job .QUEUED none env.now) :=
                getJob_setJob (get_job_or_raise_eq_ok hj) hjid
              simp only [hj, hv, hu, he, hq, if_true]
              exact ⟨trivial, rfl, hset, rfl⟩
            · simp [hj, hv, hu, he, hq]

/-- C3: `complete_upload` succeeds only from status CREATED: for every
stored job whose (well-formed) status is anything else, the call raises
`InvalidJobStateError` while performing no enqueue call and no state
change; hence a second `complete_upload` on an already-QUEUED job is
rejected without an additional enqueue. -/
theorem complete_upload_requires_created (env : Env) (db : DB) (job_id : String)
    (job : Job) (s : JobStatus)
    (hget : db.getJob job_id = some job)
    (hs : JobStatus.ofValue job.status = some s)
    (hne : s ≠ .CREATED) :
    complete_upload env db job_id =
      (.error (.invalidJobStateError
          ("Job " ++ job.job_id ++ " is in state " ++ s.value ++ ", expected " ++ "CREATED")),
        db, []) := by
  have hg : get_job_or_raise db job_id = .ok job := by
    unfold get_job_or_raise
    rw [hget]
  have hv : validate_job_state job .CREATED =
      .error (.invalidJobStateError
        ("Job " ++ job.job_id ++ " is in state " ++ s.value ++ ", expected " ++ "CREATED")) := by
    unfold validate_job_state
    simp only [hs]
    rw [if_pos hne]
    rfl
  unfold complete_upload
  simp only [hg, hv]

/-- Environment for the double-completion scenario: the object exists in
storage and the queue accepts messages. -/
def envC3 : Env :=
  { object_exists := fun _ => .ok true
    presign := fun _ => .ok "https://u"
    enqueue_ok := true
    job_id := "J1"
    bucket := "logs"
    now := 7 }

/-- Database holding one freshly initialized job "J1" with its upload
metadata. -/
def dbC3 : DB :=
  ⟨[create_job "J1" .FILE_UPLOAD "api" .CREATED],
    [create_file_upload "J1" "logs" "raw-logs/J1.log" 10 .JSON .S3 none]⟩

/-- The committed database after the first, successful
`complete_upload envC3 dbC3 "J1"`. -/
def dbC3q : DB := (complete_upload envC3 dbC3 "J1").2.1

/-- The job "J1" as transitioned to QUEUED by the first call. -/
def jobC3q : Job :=
  update_job_status (create_job "J1" .FILE_UPLOAD "api" .CREATED) .QUEUED none 7

theorem complete_upload_requires_created_witness :
    (complete_upload envC3 dbC3 "J1").1 = .ok jobC3q ∧
    (complete_upload envC3 dbC3 "J1").2.2.length = 1 ∧
    complete_upload envC3 dbC3q "J1" =
      (.error (.invalidJobStateError
          ("Job " ++ "J1" ++ " is in state " ++ "QUEUED" ++ ", expected " ++ "CREATED")),
        dbC3q, []) :=
  ⟨by decide, by decide,
    complete_upload_requires_created envC3 dbC3q "J1" jobC3q .QUEUED
      (by decide) (by decide) (by decide)⟩

end Ingest
